/-
Verification of the plan-generation core of VibeCoding.SOP.

The repository's dynamic logic lives in two places:

* `src/services/geminiService.ts` — `generateExecutionPlan`, a single-call
  wrapper around the hosted generation API: credential check, request
  construction (model id, prompt, JSON response schema), response-text
  extraction, `JSON.parse`, and a catch-all error handler returning `null`.

* `src/components/PlannerTool.tsx` — `handlePlan`, the UI handler driving
  the `input` / `plan` / `loading` / `error` state, plus the submit button's
  `disabled={loading || !input}` condition.

This file shallowly embeds both functions.  Effects are made explicit:
the outcome of `generateExecutionPlan` records the value returned, the
list of outbound `generateContent` requests issued (the code has exactly
one call site, reached only past the credential check), and the list of
`console.error` diagnostics emitted.  The remote service is an oracle
value (`ServiceResponse`): a transport-level rejection, or a resolved
response whose `.text` accessor yields an optional string.  `JSON.parse`
is modelled by an executable parser of the JSON grammar (`jsonParse`);
`none` stands for the `SyntaxError` the builtin throws, which the
source's `catch` block converts to a diagnostic plus `null`.  Numeric
literals are kept in raw textual form — the code under verification
never inspects numbers — and `\u` escapes map code units outside the
scalar range to the replacement behaviour of `Char.ofNat`.
-/
import Mathlib

namespace VibeSOP

/-- A JavaScript value produced by `JSON.parse`.  `null` doubles as the
function's explicit "no result" signal, exactly as in JavaScript, where
`return null` and `return JSON.parse "null"` are indistinguishable. -/
inductive Json where
  | null
  | bool (b : Bool)
  | num (lit : String)
  | str (s : String)
  | arr (elems : List Json)
  | obj (fields : List (String × Json))
deriving Repr

/-- The left-brace character, written via its code point. -/
def lbrace : Char := Char.ofNat 123

/-- The right-brace character, written via its code point. -/
def rbrace : Char := Char.ofNat 125

/-- JSON insignificant whitespace (RFC 8259: space, tab, newline, return). -/
def jsonWs (c : Char) : Bool :=
  c = ' ' || c = Char.ofNat 9 || c = Char.ofNat 10 || c = Char.ofNat 13

/-- Drop leading JSON whitespace. -/
def skipWs : List Char → List Char
  | [] => []
  | c :: cs => if jsonWs c then skipWs cs else c :: cs

/-- Value of a hexadecimal digit, if any. -/
def hexDigitVal (c : Char) : Option Nat :=
  if '0' ≤ c && c ≤ '9' then some (c.toNat - 48)
  else if 'a' ≤ c && c ≤ 'f' then some (c.toNat - 97 + 10)
  else if 'A' ≤ c && c ≤ 'F' then some (c.toNat - 65 + 10)
  else none

/-- Translation of a single-character escape after a backslash. -/
def escapeChar (c : Char) : Option Char :=
  if c = '"' then some '"'
  else if c = '\\' then some '\\'
  else if c = '/' then some '/'
  else if c = 'b' then some (Char.ofNat 8)
  else if c = 'f' then some (Char.ofNat 12)
  else if c = 'n' then some (Char.ofNat 10)
  else if c = 'r' then some (Char.ofNat 13)
  else if c = 't' then some (Char.ofNat 9)
  else none

/-- Body of a JSON string, after its opening quote: the decoded characters
and the remaining input past the closing quote.  Unescaped control
characters are rejected, as the builtin rejects them. -/
def stringBody : List Char → Option (List Char × List Char)
  | [] => none
  | '\\' :: 'u' :: a :: b :: c :: d :: rest =>
    match hexDigitVal a, hexDigitVal b, hexDigitVal c, hexDigitVal d with
    | some va, some vb, some vc, some vd =>
      match stringBody rest with
      | some (out, rem) =>
        some (Char.ofNat (((va * 16 + vb) * 16 + vc) * 16 + vd) :: out, rem)
      | none => none
    | _, _, _, _ => none
  | '\\' :: e :: rest =>
    match escapeChar e with
    | some ch =>
      match stringBody rest with
      | some (out, rem) => some (ch :: out, rem)
      | none => none
    | none => none
  | c :: rest =>
    if c = '"' then some ([], rest)
    else if c.toNat < 32 then none
    else
      match stringBody rest with
      | some (out, rem) => some (c :: out, rem)
      | none => none

/-- Split off a maximal run of decimal digits. -/
def digitRun : List Char → List Char × List Char
  | [] => ([], [])
  | c :: cs =>
    if c.isDigit then
      let (ds, rest) := digitRun cs
      (c :: ds, rest)
    else ([], c :: cs)

/-- Integer part of a JSON number: `0`, or a nonzero digit followed by
digits (leading zeros are a syntax error, as for the builtin). -/
def intPart : List Char → Option (List Char × List Char)
  | [] => none
  | c :: cs =>
    if c = '0' then some ([c], cs)
    else if c.isDigit then
      let (ds, rest) := digitRun cs
      some (c :: ds, rest)
    else none

/-- Optional fractional part: a dot followed by at least one digit. -/
def fracPart : List Char → Option (List Char × List Char)
  | [] => some ([], [])
  | c :: cs =>
    if c = '.' then
      match digitRun cs with
      | ([], _) => none
      | (ds, rest) => some (c :: ds, rest)
    else some ([], c :: cs)

/-- Optional exponent part: `e`/`E`, an optional sign, at least one digit. -/
def expPart : List Char → Option (List Char × List Char)
  | [] => some ([], [])
  | c :: cs =>
    if c = 'e' || c = 'E' then
      match cs with
      | [] => none
      | s :: cs2 =>
        if s = '+' || s = '-' then
          match digitRun cs2 with
          | ([], _) => none
          | (ds, rest) => some (c :: s :: ds, rest)
        else
          match digitRun cs with
          | ([], _) => none
          | (ds, rest) => some (c :: ds, rest)
    else some ([], c :: cs)

/-- A JSON numeric literal, kept in raw textual form. -/
def numberLit (cs : List Char) : Option (String × List Char) :=
  let (sign, cs1) :=
    match cs with
    | c :: rest => if c = '-' then ([c], rest) else (([] : List Char), cs)
    | [] => (([] : List Char), ([] : List Char))
  match intPart cs1 with
  | none => none
  | some (ip, cs2) =>
    match fracPart cs2 with
    | none => none
    | some (fp, cs3) =>
      match expPart cs3 with
      | none => none
      | some (ep, cs4) => some (String.mk (sign ++ ip ++ fp ++ ep), cs4)

/-- Literal keyword match: consume `lit` from the head of the input. -/
def keyword (lit : List Char) (cs : List Char) : Option (List Char) :=
  if cs.take lit.length = lit then some (cs.drop lit.length) else none

mutual

/-- One JSON value, fuel-bounded recursive descent.  Two units of fuel are
spent per consumed structural character, so any fuel of at least four
times the input length is enough; running out yields `none`. -/
def jsonValue : Nat → List Char → Option (Json × List Char)
  | 0, _ => none
  | Nat.succ fuel, cs =>
    match skipWs cs with
    | [] => none
    | c :: cs1 =>
      if c = '"' then
        match stringBody cs1 with
        | some (content, rest) => some (Json.str (String.mk content), rest)
        | none => none
      else if c = lbrace then
        match skipWs cs1 with
        | [] => none
        | d :: cs2 =>
          if d = rbrace then some (Json.obj [], cs2)
          else
            match jsonMembers fuel (d :: cs2) with
            | some (fields, rest) => some (Json.obj fields, rest)
            | none => none
      else if c = '[' then
        match skipWs cs1 with
        | [] => none
        | d :: cs2 =>
          if d = ']' then some (Json.arr [], cs2)
          else
            match jsonElements fuel (d :: cs2) with
            | some (elems, rest) => some (Json.arr elems, rest)
            | none => none
      else if c = 't' then
        match keyword ['r', 'u', 'e'] cs1 with
        | some rest => some (Json.bool true, rest)
        | none => none
      else if c = 'f' then
        match keyword ['a', 'l', 's', 'e'] cs1 with
        | some rest => some (Json.bool false, rest)
        | none => none
      else if c = 'n' then
        match keyword ['u', 'l', 'l'] cs1 with
        | some rest => some (Json.null, rest)
        | none => none
      else
        match numberLit (c :: cs1) with
        | some (lit, rest) => some (Json.num lit, rest)
        | none => none

/-- One `"key": value` object member. -/
def jsonMember : Nat → List Char → Option ((String × Json) × List Char)
  | 0, _ => none
  | Nat.succ fuel, cs =>
    match skipWs cs with
    | [] => none
    | c :: cs1 =>
      if c = '"' then
        match stringBody cs1 with
        | some (key, cs2) =>
          match skipWs cs2 with
          | [] => none
          | d :: cs3 =>
            if d = ':' then
              match jsonValue fuel cs3 with
              | some (v, cs4) => some ((String.mk key, v), cs4)
              | none => none
            else none
        | none => none
      else none

/-- A nonempty member list, including its closing brace. -/
def jsonMembers : Nat → List Char → Option (List (String × Json) × List Char)
  | 0, _ => none
  | Nat.succ fuel, cs =>
    match jsonMember fuel cs with
    | none => none
    | some (kv, cs1) =>
      match skipWs cs1 with
      | [] => none
      | c :: cs2 =>
        if c = ',' then
          match jsonMembers fuel cs2 with
          | some (kvs, rest) => some (kv :: kvs, rest)
          | none => none
        else if c = rbrace then some ([kv], cs2)
        else none

/-- A nonempty element list, including its closing bracket. -/
def jsonElements : Nat → List Char → Option (List Json × List Char)
  | 0, _ => none
  | Nat.succ fuel, cs =>
    match jsonValue fuel cs with
    | none => none
    | some (v, cs1) =>
      match skipWs cs1 with
      | [] => none
      | c :: cs2 =>
        if c = ',' then
          match jsonElements fuel cs2 with
          | some (vs, rest) => some (v :: vs, rest)
          | none => none
        else if c = ']' then some ([v], cs2)
        else none

end

/-- The `JSON.parse` builtin: `some` the parsed value, or `none` for the
thrown `SyntaxError`.  The fuel `4 * (length + 1)` is enough for any
input (nesting depth is bounded by the input length, and each descent
level spends at most four units before consuming a character). -/
def jsonParse (s : String) : Option Json :=
  match jsonValue (4 * (s.length + 1)) s.data with
  | some (j, rest) =>
    match skipWs rest with
    | [] => some j
    | _ :: _ => none
  | none => none

/-! ### The Plan Requester: `generateExecutionPlan` of `src/services/geminiService.ts` -/

/-- The two-valued language selector of the source, the literal type
`'en' | 'zh'`. -/
inductive Lang where
  | en
  | zh
deriving DecidableEq, Repr

/-- The language directive, `langInstruction` in the source
(`lang === 'zh' ? ... : ...`). -/
def langInstruction : Lang → String
  | Lang.zh => "OUTPUT MUST BE IN CHINESE (Simplified). Translate titles, strategies, and risks to Chinese."
  | Lang.en => "Output in English."

/-- The instruction text: the source's template literal with the task
description and the language directive interpolated, whitespace included. -/
def promptText (taskDescription : String) (langText : String) : String :=
  "You are an expert Senior Technical Architect and \"Vibe Coding\" specialist. \n      Your goal is to break down a complex coding requirement into a strictly phased execution plan to prevent AI confusion and code rot.\n      \n      User Task: \"" ++ taskDescription ++ "\"\n      \n      " ++ langText ++ "\n\n      Provide a JSON response with a list of steps. For each step, include:\n      - title: A short, action-oriented title.\n      - promptStrategy: Specific advice on what to tell the AI coder in this step (e.g., \"Only generate the interface definitions\").\n      - risk: What usually goes wrong here if not careful (e.g., \"AI hallucinates imports\").\n      "

/-- A `@google/genai` response schema, restricted to the three node forms
the source builds: `type: Type.OBJECT` with `properties` and an optional
`required` list, `type: Type.ARRAY` with `items`, and `type: Type.STRING`. -/
inductive Schema where
  | obj (properties : List (String × Schema)) (required : Option (List String))
  | arr (items : Schema)
  | str

/-- The per-step schema node: three string properties, all listed in
`required`. -/
def stepSchema : Schema :=
  Schema.obj
    [("title", Schema.str), ("promptStrategy", Schema.str), ("risk", Schema.str)]
    (some ["title", "promptStrategy", "risk"])

/-- The `responseSchema` of the request: an object with the single
property `steps`, an array of `stepSchema` nodes.  The outer object
declares no `required` list in the source. -/
def planResponseSchema : Schema :=
  Schema.obj [("steps", Schema.arr stepSchema)] none

/-- The argument object of the one `ai.models.generateContent` call:
model id, prompt contents, and the two `config` entries. -/
structure GenerateContentRequest where
  model : String
  contents : String
  responseMimeType : String
  responseSchema : Schema

/-- The request as the source constructs it. -/
def buildRequest (taskDescription : String) (lang : Lang) : GenerateContentRequest :=
  { model := "gemini-2.5-flash"
  , contents := promptText taskDescription (langInstruction lang)
  , responseMimeType := "application/json"
  , responseSchema := planResponseSchema }

/-- Oracle for one remote interaction: the awaited `generateContent` call
either rejects with a transport-level fault, or resolves to a response
whose `.text` accessor yields either a string or `undefined`. -/
inductive ServiceResponse where
  | fault
  | reply (text : Option String)

/-- The body of the source's `try` block after the remote call: extract
`response.text`, return `null` when it is falsy (`undefined` or the empty
string), otherwise `JSON.parse` it — `Except.error` marks a thrown
exception (a transport fault or the parser's `SyntaxError`), which the
`catch` clause below will intercept.  The `as PlannerResponse` assertion
of the source is a compile-time-only cast: the parsed value flows through
unchanged and unvalidated. -/
def tryBlock (service : ServiceResponse) : Except String Json :=
  match service with
  | ServiceResponse.fault => Except.error "generateContent rejected"
  | ServiceResponse.reply none => Except.ok Json.null
  | ServiceResponse.reply (some s) =>
    if s = "" then Except.ok Json.null
    else
      match jsonParse s with
      | none => Except.error "SyntaxError: invalid JSON"
      | some j => Except.ok j

/-- Everything observable about one call to `generateExecutionPlan`: the
value it returns (`Json.null` is the "no result" signal), the
`generateContent` requests it issued, and the `console.error` diagnostics
it emitted, in order. -/
structure GenOutcome where
  result : Json
  requests : List GenerateContentRequest
  logs : List String

/-- `generateExecutionPlan`.  `apiKeyEnv` is `process.env.API_KEY`
(`none` = variable absent); the source reads `apiKeyEnv.getD ""` into
`apiKey` via `process.env.API_KEY || ''` and fast-fails on a falsy key.
Past the check it issues the single `generateContent` request and runs
`tryBlock`; the `catch` clause turns any thrown fault into the
`"Error generating plan:"` diagnostic plus `null`.  The source defaults
`lang` to `'en'` when omitted. -/
def generateExecutionPlan (apiKeyEnv : Option String) (taskDescription : String)
    (lang : Lang) (service : ServiceResponse) : GenOutcome :=
  let apiKey := apiKeyEnv.getD ""
  if apiKey = "" then
    { result := Json.null, requests := [], logs := ["API Key is missing"] }
  else
    let req := buildRequest taskDescription lang
    match tryBlock service with
    | Except.ok j => { result := j, requests := [req], logs := [] }
    | Except.error _ =>
      { result := Json.null, requests := [req], logs := ["Error generating plan:"] }

/-! ### The typed view: the `PlannerResponse` interface of `src/types.ts` -/

/-- One step of an execution plan: the element type of
`PlannerResponse.steps`. -/
structure PlanStep where
  title : String
  promptStrategy : String
  risk : String
deriving DecidableEq, Repr

/-- JavaScript property lookup on a parsed object: with duplicate keys,
`JSON.parse` keeps the last occurrence. -/
def fieldValue (fields : List (String × Json)) (key : String) : Option Json :=
  match fields with
  | [] => none
  | (k, v) :: rest =>
    match fieldValue rest key with
    | some w => some w
    | none => if k = key then some v else none

/-- Read one step object: `some` exactly when the value is an object
carrying string values under all of `title`, `promptStrategy`, `risk` —
the shape the declared response schema demands of every element. -/
def asPlanStep (j : Json) : Option PlanStep :=
  match j with
  | Json.obj fields =>
    match fieldValue fields "title", fieldValue fields "promptStrategy",
        fieldValue fields "risk" with
    | some (Json.str t), some (Json.str p), some (Json.str r) =>
      some { title := t, promptStrategy := p, risk := r }
    | _, _, _ => none
  | _ => none

/-- Read a list of step objects, all-or-nothing. -/
def asPlanSteps (elems : List Json) : Option (List PlanStep) :=
  match elems with
  | [] => some []
  | e :: rest =>
    match asPlanStep e, asPlanSteps rest with
    | some s, some ss => some (s :: ss)
    | _, _ => none

/-- Read a whole `PlannerResponse`: `some steps` exactly when the value
is an object whose `steps` property is an array of well-formed step
objects — the payload shape requested through `planResponseSchema`. -/
def asPlannerResponse (j : Json) : Option (List PlanStep) :=
  match j with
  | Json.obj fields =>
    match fieldValue fields "steps" with
    | some (Json.arr elems) => asPlanSteps elems
    | _ => none
  | _ => none

/-! ### The Presentation Shell: `PlannerTool` of `src/components/PlannerTool.tsx` -/

/-- Is a JSON number literal a representation of zero (JavaScript's only
falsy finite numbers are `0` and `-0`)?  True exactly when every mantissa
digit is `0`, whatever the exponent. -/
def numLitIsZero (lit : String) : Bool :=
  ((lit.data.takeWhile (fun c => !(c = 'e' || c = 'E'))).filter
    (fun c => c.isDigit)).all (fun c => c = '0')

/-- JavaScript truthiness of a parsed JSON value: `null`, `false`, zero
and the empty string are falsy; every object and array (even empty) is
truthy. -/
def jsTruthy : Json → Bool
  | Json.null => false
  | Json.bool b => b
  | Json.num lit => !(numLitIsZero lit)
  | Json.str s => !(s == "")
  | Json.arr _ => true
  | Json.obj _ => true

/-- ECMAScript whitespace as recognised by `String.prototype.trim`:
the WhiteSpace production (tab, vertical tab, form feed, space, no-break
space, zero-width no-break space, and the Unicode space separators) plus
the LineTerminator production (line feed, carriage return, line
separator, paragraph separator). -/
def jsWhitespace (c : Char) : Bool :=
  let n := c.toNat
  n = 9 || n = 10 || n = 11 || n = 12 || n = 13 || n = 32 || n = 160 ||
  n = 5760 || (8192 ≤ n && n ≤ 8202) || n = 8232 || n = 8233 ||
  n = 8239 || n = 8287 || n = 12288 || n = 65279

/-- `String.prototype.trim`: strip leading and trailing JavaScript
whitespace. -/
def jsTrim (s : String) : String :=
  String.mk (((s.data.dropWhile jsWhitespace).reverse.dropWhile jsWhitespace).reverse)

/-- The component's four `useState` cells.  `plan` holds whatever value
`setPlan` received — the unvalidated `JSON.parse` result the service
returned, so it is modelled as raw `Json`, not as a checked plan. -/
structure PlannerState where
  input : String
  plan : Option Json
  loading : Bool
  error : Option String

/-- The `useState` initializers: empty input, no plan, not loading, no
error. -/
def initialPlannerState : PlannerState :=
  { input := "", plan := none, loading := false, error := none }

/-- The locale-appropriate failure message `t.error`. -/
def errorText : Lang → String
  | Lang.en => "Generation failed. Please check your API Key or try again."
  | Lang.zh => "生成失败。请检查 API Key 或重试。"

/-- The submit button's `disabled={loading || !input}` condition (`!input`
is true exactly on the empty string). -/
def submitDisabled (s : PlannerState) : Bool :=
  s.loading || (s.input == "")

/-- Observable trace of one `handlePlan` invocation: the state while the
request is awaited (after the synchronous prefix of the handler), the
state after the handler completes, and how many times the handler invoked
`generateExecutionPlan`. -/
structure HandlePlanTrace where
  midState : PlannerState
  finalState : PlannerState
  serviceCalls : Nat

/-- `handlePlan`.  Guard: `if (!input.trim()) return;`.  Then the handler
sets `loading`, clears `error` and `plan`, awaits the service and stores
either the truthy result (`setPlan`) or the locale's error text
(`setError`), and finally resets `loading`.  `result` is the value the
awaited call resolves with; the source's `catch` arm — also `setError` —
is unreachable because `generateExecutionPlan` catches its own faults and
resolves with `null` (see `tryBlock`/`generateExecutionPlan`). -/
def handlePlan (lang : Lang) (s : PlannerState) (result : Json) : HandlePlanTrace :=
  if jsTrim s.input = "" then
    { midState := s, finalState := s, serviceCalls := 0 }
  else
    let mid : PlannerState := { s with loading := true, error := none, plan := none }
    let settled : PlannerState :=
      if jsTruthy result then { mid with plan := some result }
      else { mid with error := some (errorText lang) }
    { midState := mid, finalState := { settled with loading := false }, serviceCalls := 1 }

/-- At most one of the two rendered-result cells is populated: the
component shows a plan, or an error banner, or neither. -/
def shownStatesExclusive (s : PlannerState) : Bool :=
  s.plan.isNone || s.error.isNone

/-! ### Claims -/

/-- Claim C1, counterexample.  The claim says a valid-JSON body missing a
required field — such as `\x7b\x7d`, the empty object with no `steps`
field — makes `generateExecutionPlan` return the "no result" signal.  It
does not: with the credential present the function returns the parsed
empty object, a value distinct from `null`, because the source validates
nothing after `JSON.parse` (the `as PlannerResponse` cast is erased at
runtime). -/
theorem c1_missing_fields_not_null_counterexample :
    (generateExecutionPlan (some "key") "Add a login page" Lang.en
        (ServiceResponse.reply (some "\x7b\x7d"))).result = Json.obj [] ∧
    Json.obj [] ≠ Json.null :=
  ⟨rfl, fun h => Json.noConfusion h⟩

/-- Claim C1, amended: with the credential present, for every nonempty
response body that parses as JSON, `generateExecutionPlan` returns the
parsed value as is, with no validation of required fields — a body
missing or malforming `steps`, `title`, `promptStrategy` or `risk` is
returned as a (non-null) plan value. -/
theorem c1_valid_json_returned_unvalidated :
    ∀ (k td : String) (lang : Lang) (s : String) (j : Json),
      k ≠ "" → s ≠ "" → jsonParse s = some j →
      (generateExecutionPlan (some k) td lang (ServiceResponse.reply (some s))).result = j := by
  intro k td lang s j hk hs hp
  unfold generateExecutionPlan tryBlock
  simp [hk, hs, hp]

/-- Claim C1, witness for the amended theorem, at the claim's own
example body `\x7b\x7d`. -/
theorem c1_valid_json_returned_unvalidated_witness :
    ("key" ≠ "" ∧ "\x7b\x7d" ≠ "" ∧ jsonParse "\x7b\x7d" = some (Json.obj [])) ∧
    (generateExecutionPlan (some "key") "Add a login page" Lang.en
        (ServiceResponse.reply (some "\x7b\x7d"))).result = Json.obj [] :=
  ⟨⟨by decide, by decide, rfl⟩,
    c1_valid_json_returned_unvalidated "key" "Add a login page" Lang.en "\x7b\x7d"
      (Json.obj []) (by decide) (by decide) rfl⟩

/-- Claim C2: when the credential is absent from process-wide state
(`process.env.API_KEY` unset, hence `apiKey = ""`), every call returns
the "no result" signal with zero outbound requests, whatever the task
description, language and remote behaviour — and the whole outcome is
independent of the remote service, so repeated calls agree. -/
theorem c2_missing_credential_no_result_no_network :
    ∀ (apiKeyEnv : Option String) (td : String) (lang : Lang) (service : ServiceResponse),
      apiKeyEnv.getD "" = "" →
      (generateExecutionPlan apiKeyEnv td lang service).result = Json.null ∧
      (generateExecutionPlan apiKeyEnv td lang service).requests = [] ∧
      ∀ service2, generateExecutionPlan apiKeyEnv td lang service2 =
        generateExecutionPlan apiKeyEnv td lang service := by
  intro env td lang service h
  refine ⟨?_, ?_, ?_⟩ <;> simp [generateExecutionPlan, h]

/-- Claim C2, witness: unset environment variable, a concrete task, and
two different remote behaviours giving the same outcome. -/
theorem c2_missing_credential_no_result_no_network_witness :
    ((none : Option String).getD "" = "") ∧
    (generateExecutionPlan none "Add a login page" Lang.en ServiceResponse.fault).result =
      Json.null ∧
    (generateExecutionPlan none "Add a login page" Lang.en ServiceResponse.fault).requests = [] ∧
    generateExecutionPlan none "Add a login page" Lang.en (ServiceResponse.reply none) =
      generateExecutionPlan none "Add a login page" Lang.en ServiceResponse.fault := by
  have h := c2_missing_credential_no_result_no_network none "Add a login page" Lang.en
    ServiceResponse.fault rfl
  exact ⟨rfl, h.1, h.2.1, h.2.2 (ServiceResponse.reply none)⟩

/-- Claim C3: with the credential present, a nonempty body parsing to a
value that conforms to the response schema — an object whose `steps`
property is an array of N step objects, each with the three string
fields — is returned verbatim, so the typed reading of the result is
exactly those N steps, in order, fields unaltered. -/
theorem c3_schema_conformant_roundtrip :
    ∀ (k td : String) (lang : Lang) (s : String) (j : Json) (steps : List PlanStep),
      k ≠ "" → s ≠ "" → jsonParse s = some j → asPlannerResponse j = some steps →
      (generateExecutionPlan (some k) td lang (ServiceResponse.reply (some s))).result = j ∧
      asPlannerResponse
        (generateExecutionPlan (some k) td lang (ServiceResponse.reply (some s))).result =
        some steps := by
  intro k td lang s j steps hk hs hp ha
  have hres :
      (generateExecutionPlan (some k) td lang (ServiceResponse.reply (some s))).result = j := by
    unfold generateExecutionPlan tryBlock
    simp [hk, hs, hp]
  exact ⟨hres, by rw [hres]; exact ha⟩

/-- Claim C3, witness at the spec's Scenario A: the one-step payload for
"Add a login page" round-trips with its three exact strings. -/
theorem c3_schema_conformant_roundtrip_witness :
    ("key" ≠ "" ∧
      "\x7b\"steps\":[\x7b\"title\":\"Define types\",\"promptStrategy\":\"Ask for interface only\",\"risk\":\"Hallucinated fields\"\x7d]\x7d" ≠ "" ∧
      jsonParse "\x7b\"steps\":[\x7b\"title\":\"Define types\",\"promptStrategy\":\"Ask for interface only\",\"risk\":\"Hallucinated fields\"\x7d]\x7d" =
        some (Json.obj [("steps", Json.arr [Json.obj
          [("title", Json.str "Define types"),
           ("promptStrategy", Json.str "Ask for interface only"),
           ("risk", Json.str "Hallucinated fields")]])]) ∧
      asPlannerResponse (Json.obj [("steps", Json.arr [Json.obj
          [("title", Json.str "Define types"),
           ("promptStrategy", Json.str "Ask for interface only"),
           ("risk", Json.str "Hallucinated fields")]])]) =
        some [{ title := "Define types", promptStrategy := "Ask for interface only",
                risk := "Hallucinated fields" }]) ∧
    asPlannerResponse
      (generateExecutionPlan (some "key") "Add a login page" Lang.en
        (ServiceResponse.reply (some "\x7b\"steps\":[\x7b\"title\":\"Define types\",\"promptStrategy\":\"Ask for interface only\",\"risk\":\"Hallucinated fields\"\x7d]\x7d"))).result =
      some [{ title := "Define types", promptStrategy := "Ask for interface only",
              risk := "Hallucinated fields" }] :=
  ⟨⟨by decide, by decide, rfl, rfl⟩,
    (c3_schema_conformant_roundtrip "key" "Add a login page" Lang.en
      "\x7b\"steps\":[\x7b\"title\":\"Define types\",\"promptStrategy\":\"Ask for interface only\",\"risk\":\"Hallucinated fields\"\x7d]\x7d"
      (Json.obj [("steps", Json.arr [Json.obj
        [("title", Json.str "Define types"),
         ("promptStrategy", Json.str "Ask for interface only"),
         ("risk", Json.str "Hallucinated fields")]])])
      [{ title := "Define types", promptStrategy := "Ask for interface only",
         risk := "Hallucinated fields" }]
      (by decide) (by decide) rfl rfl).2⟩

/-- Claim C4, counterexample.  The claim covers every response body that
is text but not valid JSON; the empty string is such a body (the builtin
`JSON.parse` throws on it), and the code does return the "no result"
signal for it and lets no fault escape — but it emits no diagnostic,
because `if (!text) return null;` runs before the parse and has no
logging.  So the claim's "emits a diagnostic log entry" part fails on
this input. -/
theorem c4_empty_body_undiagnosed_counterexample :
    jsonParse "" = none ∧
    (generateExecutionPlan (some "key") "Add a login page" Lang.en
        (ServiceResponse.reply (some ""))).result = Json.null ∧
    (generateExecutionPlan (some "key") "Add a login page" Lang.en
        (ServiceResponse.reply (some ""))).logs = [] :=
  ⟨rfl, rfl, rfl⟩

/-- Claim C4, amended: with the credential present, a transport-level
fault, or a NONEMPTY body that is not valid JSON, yields the "no result"
signal plus exactly one diagnostic, and no fault crosses the component
boundary (the outcome is a plain value on every path, mirroring the
source's catch-all handler); the empty body also yields "no result"
without a fault, but with no diagnostic. -/
theorem c4_fault_or_invalid_json_null_diagnosed :
    ∀ (k td : String) (lang : Lang), k ≠ "" →
      ((generateExecutionPlan (some k) td lang ServiceResponse.fault).result = Json.null ∧
       (generateExecutionPlan (some k) td lang ServiceResponse.fault).logs =
         ["Error generating plan:"]) ∧
      (∀ s : String, s ≠ "" → jsonParse s = none →
        (generateExecutionPlan (some k) td lang (ServiceResponse.reply (some s))).result =
          Json.null ∧
        (generateExecutionPlan (some k) td lang (ServiceResponse.reply (some s))).logs =
          ["Error generating plan:"]) ∧
      ((generateExecutionPlan (some k) td lang (ServiceResponse.reply (some ""))).result =
        Json.null ∧
       (generateExecutionPlan (some k) td lang (ServiceResponse.reply (some ""))).logs = []) := by
  intro k td lang hk
  refine ⟨⟨?_, ?_⟩, ?_, ⟨?_, ?_⟩⟩ <;>
    first
    | (intro s hs hp
       refine ⟨?_, ?_⟩ <;> (unfold generateExecutionPlan tryBlock; simp [hk, hs, hp]))
    | (unfold generateExecutionPlan tryBlock; simp [hk])

/-- Claim C4, witness: a transport fault and the non-JSON body "oops"
both produce null plus the diagnostic. -/
theorem c4_fault_or_invalid_json_null_diagnosed_witness :
    ("key" ≠ "" ∧ "oops" ≠ "" ∧ jsonParse "oops" = none) ∧
    (generateExecutionPlan (some "key") "Add a login page" Lang.en
        ServiceResponse.fault).logs = ["Error generating plan:"] ∧
    (generateExecutionPlan (some "key") "Add a login page" Lang.en
        (ServiceResponse.reply (some "oops"))).result = Json.null ∧
    (generateExecutionPlan (some "key") "Add a login page" Lang.en
        (ServiceResponse.reply (some "oops"))).logs = ["Error generating plan:"] := by
  have h := c4_fault_or_invalid_json_null_diagnosed "key" "Add a login page" Lang.en (by decide)
  exact ⟨⟨by decide, by decide, rfl⟩, h.1.2,
    (h.2.1 "oops" (by decide) rfl).1, (h.2.1 "oops" (by decide) rfl).2⟩

/-- Claim C5, counterexample.  The claim requires a diagnostic on every
failure path including the empty-response-body path; but when the
response's text accessor yields nothing, the code returns the "no
result" signal after its one network call without logging anything. -/
theorem c5_empty_body_no_log_counterexample :
    (generateExecutionPlan (some "key") "t" Lang.zh (ServiceResponse.reply none)).result =
      Json.null ∧
    (generateExecutionPlan (some "key") "t" Lang.zh (ServiceResponse.reply none)).logs = [] ∧
    (generateExecutionPlan (some "key") "t" Lang.zh
        (ServiceResponse.reply none)).requests.length = 1 :=
  ⟨rfl, rfl, rfl⟩

/-- Claim C5, amended: a diagnostic log entry is emitted on the
credential-missing, transport-error and parse-error failure paths, but
NOT on the empty-response-body path (text undefined or empty), which
still returns the "no result" signal; and no side effect beyond at most
one log entry and at most one network call occurs on any path. -/
theorem c5_failure_path_logging :
    ∀ (env : Option String) (k td : String) (lang : Lang) (service : ServiceResponse)
      (s : String),
      ((generateExecutionPlan none td lang service).logs = ["API Key is missing"] ∧
       (generateExecutionPlan none td lang service).requests = []) ∧
      (k ≠ "" →
        (generateExecutionPlan (some k) td lang ServiceResponse.fault).logs =
          ["Error generating plan:"] ∧
        (s ≠ "" → jsonParse s = none →
          (generateExecutionPlan (some k) td lang (ServiceResponse.reply (some s))).logs =
            ["Error generating plan:"]) ∧
        ((generateExecutionPlan (some k) td lang (ServiceResponse.reply none)).logs = [] ∧
         (generateExecutionPlan (some k) td lang (ServiceResponse.reply none)).result =
           Json.null) ∧
        ((generateExecutionPlan (some k) td lang (ServiceResponse.reply (some ""))).logs = [] ∧
         (generateExecutionPlan (some k) td lang (ServiceResponse.reply (some ""))).result =
           Json.null)) ∧
      ((generateExecutionPlan env td lang service).logs.length ≤ 1 ∧
       (generateExecutionPlan env td lang service).requests.length ≤ 1) := by
  intro env k td lang service s
  refine ⟨⟨by simp [generateExecutionPlan], by simp [generateExecutionPlan]⟩, ?_, ?_, ?_⟩
  · intro hk
    refine ⟨by unfold generateExecutionPlan tryBlock; simp [hk], ?_, ?_, ?_⟩
    · intro hs hp
      unfold generateExecutionPlan tryBlock
      simp [hk, hs, hp]
    · constructor <;> (unfold generateExecutionPlan tryBlock; simp [hk])
    · constructor <;> (unfold generateExecutionPlan tryBlock; simp [hk])
  · unfold generateExecutionPlan
    cases env with
    | none => simp
    | some k2 =>
      by_cases hk2 : k2 = ""
      · simp [hk2]
      · cases htb : tryBlock service <;> simp [hk2, htb]
  · unfold generateExecutionPlan
    cases env with
    | none => simp
    | some k2 =>
      by_cases hk2 : k2 = ""
      · simp [hk2]
      · cases htb : tryBlock service <;> simp [hk2, htb]

/-- Claim C5, witness: the missing-credential log, and the parse-error
log at the non-JSON body "oops". -/
theorem c5_failure_path_logging_witness :
    ("k" ≠ "" ∧ "oops" ≠ "" ∧ jsonParse "oops" = none) ∧
    (generateExecutionPlan none "t" Lang.en ServiceResponse.fault).logs =
      ["API Key is missing"] ∧
    (generateExecutionPlan (some "k") "t" Lang.en
        (ServiceResponse.reply (some "oops"))).logs = ["Error generating plan:"] := by
  have h := c5_failure_path_logging (some "k") "k" "t" Lang.en
    (ServiceResponse.reply (some "oops")) "oops"
  exact ⟨⟨by decide, by decide, rfl⟩, h.1.1, (h.2.1 (by decide)).2.1 (by decide) rfl⟩

/-- Claim C6: with the credential present, every invocation issues
exactly one `generateContent` request — the one the source constructs —
never zero and never more, whatever the remote then does. -/
theorem c6_one_request_when_credentialed :
    ∀ (k td : String) (lang : Lang) (service : ServiceResponse), k ≠ "" →
      (generateExecutionPlan (some k) td lang service).requests = [buildRequest td lang] ∧
      (generateExecutionPlan (some k) td lang service).requests.length = 1 := by
  intro k td lang service h
  unfold generateExecutionPlan
  cases htb : tryBlock service <;> simp [h, htb]

/-- Claim C6, witness: one request on a faulting call, one request on a
successful call. -/
theorem c6_one_request_when_credentialed_witness :
    ("key" ≠ "") ∧
    (generateExecutionPlan (some "key") "Add a login page" Lang.zh
        ServiceResponse.fault).requests.length = 1 ∧
    (generateExecutionPlan (some "key") "Add a login page" Lang.zh
        (ServiceResponse.reply (some "null"))).requests.length = 1 :=
  ⟨by decide,
    (c6_one_request_when_credentialed "key" "Add a login page" Lang.zh
      ServiceResponse.fault (by decide)).2,
    (c6_one_request_when_credentialed "key" "Add a login page" Lang.zh
      (ServiceResponse.reply (some "null")) (by decide)).2⟩

/-- Claim C7: for every task description and language selector, the
outbound request carries the response-shape constraint: a JSON object
with the single property `steps`, an array of objects, each naming
`title`, `promptStrategy` and `risk` as string properties with all three
listed as required. -/
theorem c7_request_schema_shape :
    ∀ (td : String) (lang : Lang),
      (buildRequest td lang).responseMimeType = "application/json" ∧
      (buildRequest td lang).responseSchema =
        Schema.obj
          [("steps", Schema.arr (Schema.obj
            [("title", Schema.str), ("promptStrategy", Schema.str), ("risk", Schema.str)]
            (some ["title", "promptStrategy", "risk"])))]
          none := by
  intro td lang
  exact ⟨rfl, rfl⟩

/-- Claim C8: while the request started by `handlePlan` is in flight,
`loading` is set, so the submit button's `disabled` condition holds and
no second request can start; and the in-flight state has both the
previously displayed plan and the previously displayed error cleared. -/
theorem c8_inflight_disabled_and_cleared :
    ∀ (lang : Lang) (s : PlannerState) (result : Json),
      jsTrim s.input ≠ "" →
      (handlePlan lang s result).midState.loading = true ∧
      submitDisabled (handlePlan lang s result).midState = true ∧
      (handlePlan lang s result).midState.plan = none ∧
      (handlePlan lang s result).midState.error = none := by
  intro lang s result h
  refine ⟨?_, ?_, ?_, ?_⟩ <;> simp [handlePlan, submitDisabled, h]

/-- Claim C8, witness: a state with a stale plan and a stale error, both
cleared and the trigger disabled while in flight. -/
theorem c8_inflight_disabled_and_cleared_witness :
    (jsTrim "Add a login page" ≠ "") ∧
    (handlePlan Lang.en ⟨"Add a login page", some (Json.obj []), false, some "old"⟩
        (Json.obj [])).midState.loading = true ∧
    submitDisabled
      (handlePlan Lang.en ⟨"Add a login page", some (Json.obj []), false, some "old"⟩
        (Json.obj [])).midState = true ∧
    (handlePlan Lang.en ⟨"Add a login page", some (Json.obj []), false, some "old"⟩
        (Json.obj [])).midState.plan = none ∧
    (handlePlan Lang.en ⟨"Add a login page", some (Json.obj []), false, some "old"⟩
        (Json.obj [])).midState.error = none := by
  have h := c8_inflight_disabled_and_cleared Lang.en
    ⟨"Add a login page", some (Json.obj []), false, some "old"⟩ (Json.obj []) (by decide)
  exact ⟨by decide, h.1, h.2.1, h.2.2.1, h.2.2.2⟩

/-- Claim C9: when the input trims to the empty string, `handlePlan`
returns before doing anything: no service invocation, and the state —
`loading`, `plan` and `error` included — is exactly what it was. -/
theorem c9_blank_input_noop :
    ∀ (lang : Lang) (s : PlannerState) (result : Json),
      jsTrim s.input = "" →
      (handlePlan lang s result).serviceCalls = 0 ∧
      (handlePlan lang s result).midState = s ∧
      (handlePlan lang s result).finalState = s := by
  intro lang s result h
  refine ⟨?_, ?_, ?_⟩ <;> simp [handlePlan, h]

/-- Claim C9, witness: whitespace-only input leaves a state with a stale
error untouched and calls the service zero times. -/
theorem c9_blank_input_noop_witness :
    (jsTrim "   " = "") ∧
    (handlePlan Lang.en ⟨"   ", none, false, some "old"⟩ Json.null).serviceCalls = 0 ∧
    (handlePlan Lang.en ⟨"   ", none, false, some "old"⟩ Json.null).finalState =
      ⟨"   ", none, false, some "old"⟩ :=
  ⟨by decide,
    (c9_blank_input_noop Lang.en ⟨"   ", none, false, some "old"⟩ Json.null (by decide)).1,
    (c9_blank_input_noop Lang.en ⟨"   ", none, false, some "old"⟩ Json.null (by decide)).2.2⟩

/-- Claim C10: the initial state shows neither a plan nor an error, and
every completed `handlePlan` run preserves the exclusivity — it either
leaves the state untouched, or clears both cells and then populates
exactly one of them — so a rendered plan and a rendered error are never
present together. -/
theorem c10_plan_error_mutually_exclusive :
    shownStatesExclusive initialPlannerState = true ∧
    ∀ (lang : Lang) (s : PlannerState) (result : Json),
      shownStatesExclusive s = true →
      shownStatesExclusive (handlePlan lang s result).finalState = true := by
  refine ⟨rfl, ?_⟩
  intro lang s result h
  unfold handlePlan
  by_cases hin : jsTrim s.input = ""
  · simpa [hin] using h
  · by_cases ht : jsTruthy result = true <;>
      simp [hin, ht, shownStatesExclusive]

/-- Claim C10, witness: a failing run on a state with a stale error
still ends with exactly one populated cell. -/
theorem c10_plan_error_mutually_exclusive_witness :
    (shownStatesExclusive ⟨"task", none, false, some "old"⟩ = true) ∧
    shownStatesExclusive
      (handlePlan Lang.en ⟨"task", none, false, some "old"⟩ Json.null).finalState = true :=
  ⟨by decide,
    c10_plan_error_mutually_exclusive.2 Lang.en ⟨"task", none, false, some "old"⟩
      Json.null (by decide)⟩

end VibeSOP
